import Mathlib

/-!
# VPC peering connection resource: create / read / delete

A shallow embedding of `google/resource_compute_vpc_peering_connection.go`.

* `ResourceData` is the host's `*schema.ResourceData` restricted to the
  resource's schema: the identifier plus the seven declared fields.  `d.Get`
  cannot tell an unset field from its zero value, so a field holds its `Get`
  value (`""` / `false` when unset).
* The cloud control plane is a state of an arbitrary type `σ` together with
  handlers for the four remote interactions the file performs.  Every
  interaction is appended to a ghost log (`World.calls`), so that "no remote
  call was issued" is a statement about the log.
* A Go `error` return is an `Option Error` (`none` is `nil`).
-/

set_option linter.dupNamespace false

namespace VpcPeering

/-! ## Data model -/

/-- Go `error` values.  `errorString` is what `fmt.Errorf` builds in this file;
`remote` stands for an error value handed back by a collaborator, with its
status code. -/
inductive Error where
  | errorString (message : String)
  | remote (code : Nat) (message : String)
  deriving DecidableEq, Repr

/-- The `Error()` method: the text of an error. -/
def Error.Error : Error → String
  | .errorString m => m
  | .remote _ m => m

/-- The error built by `fmt.Errorf(format, ...)` once the text is formatted. -/
def fmtErrorf (text : String) : Error := .errorString text

/-- A hexadecimal digit in lower case, as `%q` writes it. -/
def hexDigit (n : Nat) : Char :=
  if n < 10 then Char.ofNat (48 + n) else Char.ofNat (87 + n)

/-- How the verb `%q` writes one character: the double quote (34) and the
backslash (92) take a backslash, the control characters take their named
escape or the two-digit `\x` form, every other character is written as it is.
This is `strconv.Quote` on ASCII; beyond ASCII it keeps each character, where
`strconv.Quote` escapes the non-printable ones. -/
def quoteRune (c : Char) : List Char :=
  if c = Char.ofNat 34 ∨ c = Char.ofNat 92 then [Char.ofNat 92, c]
  else if c = Char.ofNat 7 then [Char.ofNat 92, 'a']
  else if c = Char.ofNat 8 then [Char.ofNat 92, 'b']
  else if c = Char.ofNat 12 then [Char.ofNat 92, 'f']
  else if c = Char.ofNat 10 then [Char.ofNat 92, 'n']
  else if c = Char.ofNat 13 then [Char.ofNat 92, 'r']
  else if c = Char.ofNat 9 then [Char.ofNat 92, 't']
  else if c = Char.ofNat 11 then [Char.ofNat 92, 'v']
  else if c.toNat < 32 ∨ c.toNat = 127 then
    [Char.ofNat 92, 'x', hexDigit (c.toNat / 16), hexDigit (c.toNat % 16)]
  else [c]

/-- The verb `%q` on a string: the characters, each written by `quoteRune`,
between double quotes. -/
def fmtQuote (s : String) : String :=
  String.mk ([Char.ofNat 34] ++ (s.toList.map quoteRune).flatten ++ [Char.ofNat 34])

/-- The resource's local state: identifier and schema fields (lines 20-54). -/
structure ResourceData where
  id : String
  name : String
  network : String
  project : String
  peer_network : String
  auto_create_routes : Bool
  state : String
  state_details : String
  deriving DecidableEq, Repr

/-- The method `d.Id()`. -/
def ResourceData.Id (d : ResourceData) : String := d.id

/-- The method `d.SetId(v)`. -/
def ResourceData.SetId (d : ResourceData) (v : String) : ResourceData := { d with id := v }

/-- `compute.NetworksAddPeeringRequest`, the fields the file fills in. -/
structure NetworksAddPeeringRequest where
  Name : String
  PeerNetwork : String
  AutoCreateRoutes : Bool
  ForceSendFields : List String
  deriving DecidableEq, Repr

/-- `compute.NetworksRemovePeeringRequest`. -/
structure NetworksRemovePeeringRequest where
  Name : String
  deriving DecidableEq, Repr

/-- `compute.NetworkPeering`, the fields the file reads. -/
structure NetworkPeering where
  Name : String
  AutoCreateRoutes : Bool
  State : String
  StateDetails : String
  deriving DecidableEq, Repr

/-- `compute.Network`, the field the file reads. -/
structure Network where
  Peerings : List NetworkPeering
  deriving DecidableEq, Repr

/-- `compute.Operation`: the handle of a pending remote operation. -/
structure Operation where
  Name : String
  deriving DecidableEq, Repr

/-- The remote interactions the file can perform. -/
inductive Call where
  | addPeering (project network : String) (req : NetworksAddPeeringRequest)
  | getNetwork (project network : String)
  | removePeering (project network : String) (req : NetworksRemovePeeringRequest)
  | wait (op : Operation) (project activity : String)
  deriving DecidableEq, Repr

/-- The collaborators of the file, none of which it defines: the two resolvers,
the classification of an error as "not found", what the classifier does when it
is handed no error at all (the error it returns for the given label, and
whether it clears the identifier), and the remote handlers acting on the
control-plane state `σ`. -/
structure Config (σ : Type) where
  resolveProject : String → Except Error String
  resolveNetwork : String → Except Error String
  isNotFound : Error → Bool
  onNilError : String → Option Error × Bool
  networksAddPeering : σ → String → String → NetworksAddPeeringRequest → Except Error Operation × σ
  networksGet : σ → String → String → Except Error Network × σ
  networksRemovePeering :
    σ → String → String → NetworksRemovePeeringRequest → Except Error Operation × σ
  operationWait : σ → Operation → String → String → Option Error × σ

/-- The control plane and the log of the interactions issued so far. -/
structure World (σ : Type) where
  remote : σ
  calls : List Call

/-- What an operation leaves behind: its `error` return, the local state and
the world. -/
structure Outcome (σ : Type) where
  err : Option Error
  d : ResourceData
  world : World σ

/-! ## Collaborators -/

/-- Modelled from the spec: `getProject` is not in this file.  It resolves the
project scope from the entity's `project` field, defaulting through the
configuration when the field is absent, or fails. -/
def getProject {σ : Type} (d : ResourceData) (config : Config σ) : Except Error String :=
  config.resolveProject d.project

/-- Modelled from the spec: `getNetworkName` is not in this file.  It resolves
the `network` field of the entity to a network identifier, or fails. -/
def getNetworkName {σ : Type} (config : Config σ) (d : ResourceData) : Except Error String :=
  config.resolveNetwork d.network

/-- Modelled from the spec: `handleNotFoundError`, the not-found classifier, is
not in this file.  Given an error and a descriptive label it tells "remote
entity absent" from "other error": on the absent case it clears the local
identifier and returns no error, any other error is propagated as it is.  What
it does when the error handed to it is nil is not fixed by the spec and is the
parameter `Config.onNilError`; the classifier touches the identifier only. -/
def handleNotFoundError {σ : Type} (config : Config σ) (err : Option Error) (d : ResourceData)
    (resource : String) : Option Error × ResourceData :=
  match err with
  | none => ((config.onNilError resource).1,
      if (config.onNilError resource).2 then d.SetId "" else d)
  | some e => if config.isNotFound e then (none, d.SetId "") else (some e, d)

/-- The call `config.clientCompute.Networks.AddPeering(project, network, peering).Do()`. -/
def World.networksAddPeering {σ : Type} (w : World σ) (config : Config σ)
    (project network : String) (peering : NetworksAddPeeringRequest) :
    Except Error Operation × World σ :=
  let r := config.networksAddPeering w.remote project network peering
  (r.1, { remote := r.2, calls := w.calls ++ [Call.addPeering project network peering] })

/-- The call `config.clientCompute.Networks.Get(project, networkName).Do()`. -/
def World.networksGet {σ : Type} (w : World σ) (config : Config σ)
    (project network : String) : Except Error Network × World σ :=
  let r := config.networksGet w.remote project network
  (r.1, { remote := r.2, calls := w.calls ++ [Call.getNetwork project network] })

/-- The call `config.clientCompute.Networks.RemovePeering(project, network, peering).Do()`. -/
def World.networksRemovePeering {σ : Type} (w : World σ) (config : Config σ)
    (project network : String) (peering : NetworksRemovePeeringRequest) :
    Except Error Operation × World σ :=
  let r := config.networksRemovePeering w.remote project network peering
  (r.1, { remote := r.2, calls := w.calls ++ [Call.removePeering project network peering] })

/-- Modelled from the spec: `computeOperationWaitGlobal`, the operation waiter, is
not in this file.  Given a pending operation, the project and an action label it
blocks until the operation is terminal; it returns nothing on success and an
error on failure or timeout. -/
def computeOperationWaitGlobal {σ : Type} (config : Config σ) (w : World σ) (op : Operation)
    (project activity : String) : Option Error × World σ :=
  let r := config.operationWait w.remote op project activity
  (r.1, { remote := r.2, calls := w.calls ++ [Call.wait op project activity] })

/-- The importer `schema.ImportStatePassthrough`: the state handed in, which
carries only the identifier, is returned as it is. -/
def ImportStatePassthrough (d : ResourceData) : List ResourceData := [d]

/-- The state the host hands to the importer for the identifier `x`: the
identifier and no field. -/
def importedState (x : String) : ResourceData :=
  { id := x, name := "", network := "", project := "", peer_network := "",
    auto_create_routes := false, state := "", state_details := "" }

/-! ## The resource (lines 58-172) -/

/-- Lines 58-66. -/
def resourceComputeVpcPeeringConnectionNetwork {σ : Type} (config : Config σ)
    (d : ResourceData) : Except Error String :=
  match getNetworkName config d with
  | .error err => .error err
  | .ok network =>
    if network = "" then
      .error (fmtErrorf (fmtQuote "network" ++ ": required field is not set"))
    else .ok network

/-- The loop of lines 125-134: the state after the first peering whose name is
the local identifier, `none` when the loop runs to its end. -/
def scanPeerings (d : ResourceData) : List NetworkPeering → Option ResourceData
  | [] => none
  | peering :: rest =>
    if peering.Name = d.Id then
      some { d with
        name := peering.Name
        network := d.network
        auto_create_routes := peering.AutoCreateRoutes
        state := peering.State
        state_details := peering.StateDetails }
    else scanPeerings d rest

/-- Lines 106-139. -/
def resourceComputeVpcPeeringConnectionRead {σ : Type} (config : Config σ)
    (d : ResourceData) (w : World σ) : Outcome σ :=
  match getProject d config with
  | .error err => ⟨some err, d, w⟩
  | .ok project =>
    match resourceComputeVpcPeeringConnectionNetwork config d with
    | .error err => ⟨some err, d, w⟩
    | .ok networkName =>
      match w.networksGet config project networkName with
      | (.error err, w1) =>
        let r := handleNotFoundError config (some err) d ("Network " ++ fmtQuote d.name)
        ⟨r.1, r.2, w1⟩
      | (.ok network, w1) =>
        match scanPeerings d network.Peerings with
        | some d1 => ⟨none, d1, w1⟩
        | none =>
          let r := handleNotFoundError config none d
            ("Network peering " ++ fmtQuote d.name ++ " not found in network "
              ++ fmtQuote networkName)
          ⟨r.1, r.2, w1⟩

/-- The add-peering request built on lines 82-87. -/
def addPeeringRequest (d : ResourceData) : NetworksAddPeeringRequest :=
  { Name := d.name
    PeerNetwork := d.peer_network
    AutoCreateRoutes := d.auto_create_routes
    ForceSendFields := ["AutoCreateRoutes"] }

/-- The remove-peering request built on lines 154-156. -/
def removePeeringRequest (d : ResourceData) : NetworksRemovePeeringRequest :=
  { Name := d.Id }

/-- Lines 68-104. -/
def resourceComputeVpcPeeringConnectionCreate {σ : Type} (config : Config σ)
    (d : ResourceData) (w : World σ) : Outcome σ :=
  match getProject d config with
  | .error err => ⟨some err, d, w⟩
  | .ok project =>
    match resourceComputeVpcPeeringConnectionNetwork config d with
    | .error err => ⟨some err, d, w⟩
    | .ok network =>
      let peering := addPeeringRequest d
      match w.networksAddPeering config project network peering with
      | (.error err, w1) =>
        ⟨some (fmtErrorf ("Error creating network peering: " ++ err.Error)), d, w1⟩
      | (.ok op, w1) =>
        let d1 := d.SetId peering.Name
        match computeOperationWaitGlobal config w1 op project "Creating Network Peering" with
        | (some err, w2) => ⟨some err, d1, w2⟩
        | (none, w2) => resourceComputeVpcPeeringConnectionRead config d1 w2

/-- Lines 141-172. -/
def resourceComputeVpcPeeringConnectionDelete {σ : Type} (config : Config σ)
    (d : ResourceData) (w : World σ) : Outcome σ :=
  match getProject d config with
  | .error err => ⟨some err, d, w⟩
  | .ok project =>
    match resourceComputeVpcPeeringConnectionNetwork config d with
    | .error err => ⟨some err, d, w⟩
    | .ok network =>
      let peering := removePeeringRequest d
      match w.networksRemovePeering config project network peering with
      | (.error err, w1) =>
        ⟨some (fmtErrorf ("Error deleting network peering: " ++ err.Error)), d, w1⟩
      | (.ok op, w1) =>
        match computeOperationWaitGlobal config w1 op project "Deleting Network Peering" with
        | (some err, w2) => ⟨some err, d, w2⟩
        | (none, w2) => ⟨none, d.SetId "", w2⟩

/-- Project and network resolve on `d`: the project resolver yields `project`
and the network resolver yields the non-empty identifier `network`. -/
def Resolves {σ : Type} (config : Config σ) (d : ResourceData) (project network : String) :
    Prop :=
  getProject d config = .ok project ∧ getNetworkName config d = .ok network ∧ network ≠ ""

/-! ## A small control plane for worked examples -/

/-- The knobs of the example control plane: the project the configuration
supplies when the field is unset (empty when it supplies none), and the
failure, if any, of each remote interaction. -/
structure Scenario where
  defaultProject : String
  addFault : Option Error
  getFault : Option Error
  removeFault : Option Error
  waitFault : Option Error

/-- The example control plane: one network, whose peering list is the state.
Adding appends an active peering, removing drops the peerings of that name,
getting lists them; status 404 is the "not found" error.  The network resolver
returns the field as it is, so an unset field resolves to the empty string.
Handed no error, the classifier reports the label as an error and keeps the
identifier. -/
def scenarioConfig (s : Scenario) : Config (List NetworkPeering) where
  resolveProject p :=
    if p = "" then
      if s.defaultProject = "" then
        .error (fmtErrorf (fmtQuote "project" ++ ": required field is not set"))
      else .ok s.defaultProject
    else .ok p
  resolveNetwork n := .ok n
  isNotFound e :=
    match e with
    | .remote code _ => code == 404
    | .errorString _ => false
  onNilError resource := (some (.errorString resource), false)
  networksAddPeering st _ _ req :=
    match s.addFault with
    | some e => (.error e, st)
    | none =>
      (.ok { Name := "operation-add" },
        st ++ [{ Name := req.Name, AutoCreateRoutes := req.AutoCreateRoutes,
                 State := "ACTIVE", StateDetails := "" }])
  networksGet st _ _ :=
    match s.getFault with
    | some e => (.error e, st)
    | none => (.ok { Peerings := st }, st)
  networksRemovePeering st _ _ req :=
    match s.removeFault with
    | some e => (.error e, st)
    | none => (.ok { Name := "operation-remove" }, st.filter fun q => q.Name != req.Name)
  operationWait st _ _ _ := (s.waitFault, st)

/-- The scenario in which nothing fails and no default exists. -/
def calm : Scenario :=
  { defaultProject := "", addFault := none, getFault := none, removeFault := none,
    waitFault := none }

/-- The desired entity of the spec's scenario: peering `peer-a` of `net-1` with
`net-2` in project `proj-1`, routes created automatically. -/
def peerA : ResourceData :=
  { id := "", name := "peer-a", network := "net-1", project := "proj-1",
    peer_network := "net-2", auto_create_routes := true, state := "", state_details := "" }

/-- A world whose network lists the given peerings and where nothing was called. -/
def worldOf (peerings : List NetworkPeering) : World (List NetworkPeering) :=
  { remote := peerings, calls := [] }

/-- The entity `peerA` once created: its identifier is its name. -/
def peerACreated : ResourceData := peerA.SetId "peer-a"

/-- A peering list in which `peer-a` occurs twice, after `peer-b`. -/
def twicePeerA : List NetworkPeering :=
  [{ Name := "peer-b", AutoCreateRoutes := false, State := "ACTIVE", StateDetails := "" },
   { Name := "peer-a", AutoCreateRoutes := true, State := "ACTIVE", StateDetails := "connected" },
   { Name := "peer-a", AutoCreateRoutes := false, State := "INACTIVE", StateDetails := "stale" }]

/-- A peering list holding an older `peer-a` that creates no routes. -/
def stalePeerA : List NetworkPeering :=
  [{ Name := "peer-a", AutoCreateRoutes := false, State := "INACTIVE", StateDetails := "stale" }]

/-- A peering list holding an active `peer-a`. -/
def activePeerA : List NetworkPeering :=
  [{ Name := "peer-a", AutoCreateRoutes := true, State := "ACTIVE", StateDetails := "" }]

/-- The scenario in which the get-network call reports status 404. -/
def networkGone : Scenario := { calm with getFault := some (.remote 404 "network not found") }

/-- The scenario in which the remove-peering call is rejected. -/
def removeRejected : Scenario :=
  { calm with removeFault := some (.remote 500 "backend error") }

/-- The scenario in which the waiter times out. -/
def waitTimesOut : Scenario :=
  { calm with waitFault := some (.errorString "timeout while waiting for the operation") }

/-- The scenario in which the configuration supplies a default project. -/
def projectDefault : Scenario := { calm with defaultProject := "proj-1" }

/-- The entity `peerA` with auto_create_routes never set. -/
def peerANoRoutes : ResourceData := { peerA with auto_create_routes := false }

/-- The entity `peerA` with its network field unset. -/
def peerANoNetwork : ResourceData := { peerA with network := "" }

/-! ## Auxiliary facts -/

theorem network_of_resolves {σ : Type} {config : Config σ} {d : ResourceData}
    {project network : String} (h : Resolves config d project network) :
    resourceComputeVpcPeeringConnectionNetwork config d = .ok network := by
  obtain ⟨_, hn, hne⟩ := h
  simp [resourceComputeVpcPeeringConnectionNetwork, hn, hne]

theorem scanPeerings_none (d : ResourceData) (l : List NetworkPeering)
    (h : ∀ q ∈ l, q.Name ≠ d.Id) : scanPeerings d l = none := by
  induction l with
  | nil => rfl
  | cons q rest ih =>
    have hq : q.Name ≠ d.Id := h q (List.mem_cons_self q rest)
    have hrest : ∀ r ∈ rest, r.Name ≠ d.Id := fun r hr => h r (List.mem_cons_of_mem q hr)
    simp [scanPeerings, hq, ih hrest]

theorem scanPeerings_first (d : ResourceData) (l : List NetworkPeering)
    (h : ∃ q ∈ l, q.Name = d.Id) :
    ∃ pre p post, l = pre ++ p :: post ∧ (∀ q ∈ pre, q.Name ≠ d.Id) ∧ p.Name = d.Id ∧
      scanPeerings d l = some { d with
        name := p.Name
        auto_create_routes := p.AutoCreateRoutes
        state := p.State
        state_details := p.StateDetails } := by
  induction l with
  | nil => simp at h
  | cons q rest ih =>
    by_cases hq : q.Name = d.Id
    · exact ⟨[], q, rest, rfl, by simp, hq, by simp [scanPeerings, hq]⟩
    · have hrest : ∃ r ∈ rest, r.Name = d.Id := by
        obtain ⟨r, hr, hname⟩ := h
        rcases List.mem_cons.mp hr with rfl | hr
        · exact absurd hname hq
        · exact ⟨r, hr, hname⟩
      obtain ⟨pre, p, post, hl, hpre, hp, hscan⟩ := ih hrest
      refine ⟨q :: pre, p, post, by simp [hl], ?_, hp, by simp [scanPeerings, hq, hscan]⟩
      intro r hr
      rcases List.mem_cons.mp hr with rfl | hr
      · exact hq
      · exact hpre r hr

/-- Read once project and network have resolved: one get-network call, then the
classifier or the scan. -/
theorem read_of_resolves {σ : Type} (config : Config σ) (d : ResourceData) (w : World σ)
    (project network : String) (h : Resolves config d project network) :
    resourceComputeVpcPeeringConnectionRead config d w =
      match (config.networksGet w.remote project network).1 with
      | .error err =>
        ⟨(handleNotFoundError config (some err) d ("Network " ++ fmtQuote d.name)).1,
         (handleNotFoundError config (some err) d ("Network " ++ fmtQuote d.name)).2,
         (w.networksGet config project network).2⟩
      | .ok net =>
        match scanPeerings d net.Peerings with
        | some d1 => ⟨none, d1, (w.networksGet config project network).2⟩
        | none =>
          ⟨(handleNotFoundError config none d
              ("Network peering " ++ fmtQuote d.name ++ " not found in network "
                ++ fmtQuote network)).1,
           (handleNotFoundError config none d
              ("Network peering " ++ fmtQuote d.name ++ " not found in network "
                ++ fmtQuote network)).2,
           (w.networksGet config project network).2⟩ := by
  have hn := network_of_resolves h
  obtain ⟨hp, _, _⟩ := h
  simp only [resourceComputeVpcPeeringConnectionRead, hp, hn, World.networksGet]
  cases hg : (config.networksGet w.remote project network).1 with
  | error err => simp
  | ok net =>
    cases hs : scanPeerings d net.Peerings with
    | none => simp [hs]
    | some d1 => simp [hs]

/-- The scan changes neither the identifier nor the network, peer network and
project fields. -/
theorem scanPeerings_frame (d d1 : ResourceData) (l : List NetworkPeering)
    (h : scanPeerings d l = some d1) :
    d1.id = d.id ∧ d1.network = d.network ∧ d1.peer_network = d.peer_network ∧
      d1.project = d.project := by
  induction l with
  | nil => simp [scanPeerings] at h
  | cons q rest ih =>
    by_cases hq : q.Name = d.Id
    · simp [scanPeerings, hq] at h
      subst h
      simp
    · simp [scanPeerings, hq] at h
      exact ih h

/-- Resolution looks at the project and network fields only, so it is
insensitive to the identifier. -/
theorem resolves_setId {σ : Type} {config : Config σ} {d : ResourceData}
    {project network : String} (v : String) (h : Resolves config d project network) :
    Resolves config (d.SetId v) project network := h

/-- Read leaves the world as it is or issues exactly one get-network call. -/
theorem read_world_cases {σ : Type} (config : Config σ) (d : ResourceData) (w : World σ) :
    (resourceComputeVpcPeeringConnectionRead config d w).world = w ∨
      ∃ project network,
        (resourceComputeVpcPeeringConnectionRead config d w).world =
          { remote := (config.networksGet w.remote project network).2
            calls := w.calls ++ [Call.getNetwork project network] } := by
  unfold resourceComputeVpcPeeringConnectionRead
  cases hp : getProject d config with
  | error err => exact Or.inl rfl
  | ok project =>
    cases hn : resourceComputeVpcPeeringConnectionNetwork config d with
    | error err => exact Or.inl rfl
    | ok networkName =>
      refine Or.inr ⟨project, networkName, ?_⟩
      simp only [World.networksGet]
      cases hg : (config.networksGet w.remote project networkName).1 with
      | error err => rfl
      | ok net =>
        cases hs : scanPeerings d net.Peerings with
        | none => simp [hs]
        | some d1 => simp [hs]

/-- The classifier touches the identifier only. -/
theorem handleNotFoundError_frame {σ : Type} (config : Config σ) (err : Option Error)
    (d : ResourceData) (resource : String) :
    (handleNotFoundError config err d resource).2.network = d.network ∧
      (handleNotFoundError config err d resource).2.peer_network = d.peer_network ∧
      (handleNotFoundError config err d resource).2.project = d.project := by
  unfold handleNotFoundError
  cases err with
  | none =>
    by_cases hclear : (config.onNilError resource).2 = true
    · simp [hclear, ResourceData.SetId]
    · simp [hclear]
  | some e =>
    by_cases hnf : config.isNotFound e = true
    · simp [hnf, ResourceData.SetId]
    · simp [hnf]

/-- Read never changes the network, peer network and project fields. -/
theorem read_fields_frame {σ : Type} (config : Config σ) (d : ResourceData) (w : World σ) :
    (resourceComputeVpcPeeringConnectionRead config d w).d.network = d.network ∧
      (resourceComputeVpcPeeringConnectionRead config d w).d.peer_network = d.peer_network ∧
      (resourceComputeVpcPeeringConnectionRead config d w).d.project = d.project := by
  unfold resourceComputeVpcPeeringConnectionRead
  cases hp : getProject d config with
  | error err => exact ⟨rfl, rfl, rfl⟩
  | ok project =>
    cases hn : resourceComputeVpcPeeringConnectionNetwork config d with
    | error err => exact ⟨rfl, rfl, rfl⟩
    | ok networkName =>
      simp only [World.networksGet]
      cases hg : (config.networksGet w.remote project networkName).1 with
      | error err => exact handleNotFoundError_frame config (some err) d _
      | ok net =>
        cases hs : scanPeerings d net.Peerings with
        | none => simpa [hs] using handleNotFoundError_frame config none d _
        | some d1 =>
          obtain ⟨_, h1, h2, h3⟩ := scanPeerings_frame d d1 net.Peerings hs
          simp [hs, h1, h2, h3]

/-- Create once project and network have resolved. -/
theorem create_of_resolves {σ : Type} (config : Config σ) (d : ResourceData) (w : World σ)
    (project network : String) (h : Resolves config d project network) :
    resourceComputeVpcPeeringConnectionCreate config d w =
      match (w.networksAddPeering config project network (addPeeringRequest d)) with
      | (.error err, w1) =>
        ⟨some (fmtErrorf ("Error creating network peering: " ++ err.Error)), d, w1⟩
      | (.ok op, w1) =>
        match computeOperationWaitGlobal config w1 op project "Creating Network Peering" with
        | (some err, w2) => ⟨some err, d.SetId d.name, w2⟩
        | (none, w2) => resourceComputeVpcPeeringConnectionRead config (d.SetId d.name) w2 := by
  have hn := network_of_resolves h
  obtain ⟨hp, _, _⟩ := h
  simp only [resourceComputeVpcPeeringConnectionCreate, hp, hn, addPeeringRequest]

/-- Delete once project and network have resolved. -/
theorem delete_of_resolves {σ : Type} (config : Config σ) (d : ResourceData) (w : World σ)
    (project network : String) (h : Resolves config d project network) :
    resourceComputeVpcPeeringConnectionDelete config d w =
      match (w.networksRemovePeering config project network (removePeeringRequest d)) with
      | (.error err, w1) =>
        ⟨some (fmtErrorf ("Error deleting network peering: " ++ err.Error)), d, w1⟩
      | (.ok op, w1) =>
        match computeOperationWaitGlobal config w1 op project "Deleting Network Peering" with
        | (some err, w2) => ⟨some err, d, w2⟩
        | (none, w2) => ⟨none, d.SetId "", w2⟩ := by
  have hn := network_of_resolves h
  obtain ⟨hp, _, _⟩ := h
  simp only [resourceComputeVpcPeeringConnectionDelete, hp, hn]

/-- The scan stops at the first peering named as the identifier. -/
theorem scanPeerings_append (d : ResourceData) (pre post : List NetworkPeering)
    (p : NetworkPeering) (hpre : ∀ q ∈ pre, q.Name ≠ d.Id) (hp : p.Name = d.Id) :
    scanPeerings d (pre ++ p :: post) = some { d with
      name := p.Name
      auto_create_routes := p.AutoCreateRoutes
      state := p.State
      state_details := p.StateDetails } := by
  induction pre with
  | nil => simp [scanPeerings, hp]
  | cons q rest ih =>
    have hq : q.Name ≠ d.Id := hpre q (List.mem_cons_self q rest)
    have hrest : ∀ r ∈ rest, r.Name ≠ d.Id := fun r hr => hpre r (List.mem_cons_of_mem q hr)
    simp [scanPeerings, hq, ih hrest]

/-- Read when the get-network call succeeds and the first peering named as the
identifier is `p`. -/
theorem read_eq_of_first_match {σ : Type} (config : Config σ) (d : ResourceData) (w w1 : World σ)
    (project network : String) (net : Network) (pre post : List NetworkPeering)
    (p : NetworkPeering) (hres : Resolves config d project network)
    (hget : w.networksGet config project network = (.ok net, w1))
    (hl : net.Peerings = pre ++ p :: post) (hpre : ∀ q ∈ pre, q.Name ≠ d.Id)
    (hp : p.Name = d.Id) :
    resourceComputeVpcPeeringConnectionRead config d w =
      ⟨none, { d with
        name := p.Name
        auto_create_routes := p.AutoCreateRoutes
        state := p.State
        state_details := p.StateDetails }, w1⟩ := by
  have hg1 : (config.networksGet w.remote project network).1 = .ok net := by
    have := congrArg Prod.fst hget
    simpa [World.networksGet] using this
  have hw1 : (w.networksGet config project network).2 = w1 := by rw [hget]
  rw [read_of_resolves config d w project network hres]
  simp [hg1, hl, scanPeerings_append d pre post p hpre hp, hw1]

/-! ## The claims -/

/-- C1: when project and network resolve and the network returned by the
get-network call lists at least one peering named as the local identifier,
Read returns no error, keeps the identifier and sets name, auto_create_routes,
state and state_details from the first such peering in list order; every other
field keeps its value. -/
theorem read_populates_from_first_match {σ : Type} (config : Config σ) (d : ResourceData)
    (w : World σ) (project networkName : String) (network : Network)
    (hres : Resolves config d project networkName)
    (hget : (config.networksGet w.remote project networkName).1 = .ok network)
    (hmatch : ∃ q ∈ network.Peerings, q.Name = d.Id) :
    ∃ pre p post, network.Peerings = pre ++ p :: post ∧ (∀ q ∈ pre, q.Name ≠ d.Id) ∧
      p.Name = d.Id ∧
      (resourceComputeVpcPeeringConnectionRead config d w).err = none ∧
      (resourceComputeVpcPeeringConnectionRead config d w).d.Id = d.Id ∧
      (resourceComputeVpcPeeringConnectionRead config d w).d =
        { d with
          name := p.Name
          auto_create_routes := p.AutoCreateRoutes
          state := p.State
          state_details := p.StateDetails } := by
  obtain ⟨pre, p, post, hl, hpre, hp, hscan⟩ := scanPeerings_first d network.Peerings hmatch
  refine ⟨pre, p, post, hl, hpre, hp, ?_⟩
  rw [read_of_resolves config d w project networkName hres]
  simp [hget, hscan, ResourceData.Id]

/-- C2: what the code does where the claim expects NotFound.  When project and
network resolve, the get-network call succeeds and no listed peering (the empty
list included) is named as the local identifier, line 136 hands the classifier
a nil error: Read returns whatever the classifier returns when it has no error
to classify, and the identifier is cleared exactly when the classifier clears
it on a nil error.  Nothing else changes locally and one get-network call was
issued. -/
theorem read_no_match_hands_nil_to_classifier {σ : Type} (config : Config σ)
    (d : ResourceData) (w : World σ) (project networkName : String) (network : Network)
    (hres : Resolves config d project networkName)
    (hget : (config.networksGet w.remote project networkName).1 = .ok network)
    (hnone : ∀ q ∈ network.Peerings, q.Name ≠ d.Id) :
    (resourceComputeVpcPeeringConnectionRead config d w).err =
        (handleNotFoundError config none d
          ("Network peering " ++ fmtQuote d.name ++ " not found in network "
            ++ fmtQuote networkName)).1 ∧
      (resourceComputeVpcPeeringConnectionRead config d w).err =
        (config.onNilError ("Network peering " ++ fmtQuote d.name ++ " not found in network "
          ++ fmtQuote networkName)).1 ∧
      (resourceComputeVpcPeeringConnectionRead config d w).d =
        (if (config.onNilError ("Network peering " ++ fmtQuote d.name
            ++ " not found in network " ++ fmtQuote networkName)).2
          then d.SetId "" else d) ∧
      (resourceComputeVpcPeeringConnectionRead config d w).world =
        (w.networksGet config project networkName).2 := by
  rw [read_of_resolves config d w project networkName hres]
  simp only [hget, scanPeerings_none d network.Peerings hnone]
  exact ⟨trivial, rfl, rfl, trivial⟩

/-- C3: when project and network resolve and the get-network call fails with
`e`, the outcome of Read is the classifier's outcome on `e` after that one call:
an error classified as not found clears the identifier and no error is
returned, any other error is returned as it is with the local state untouched.
The failed call hands back no network, so there is no peering list to consult. -/
theorem read_get_failure_is_classified {σ : Type} (config : Config σ) (d : ResourceData)
    (w : World σ) (project networkName : String) (e : Error)
    (hres : Resolves config d project networkName)
    (hget : (config.networksGet w.remote project networkName).1 = .error e) :
    (resourceComputeVpcPeeringConnectionRead config d w).err =
        (handleNotFoundError config (some e) d ("Network " ++ fmtQuote d.name)).1 ∧
      (resourceComputeVpcPeeringConnectionRead config d w).d =
        (handleNotFoundError config (some e) d ("Network " ++ fmtQuote d.name)).2 ∧
      (resourceComputeVpcPeeringConnectionRead config d w).world =
        (w.networksGet config project networkName).2 ∧
      (config.isNotFound e = true →
        (resourceComputeVpcPeeringConnectionRead config d w).err = none ∧
        (resourceComputeVpcPeeringConnectionRead config d w).d = d.SetId "") ∧
      (config.isNotFound e = false →
        (resourceComputeVpcPeeringConnectionRead config d w).err = some e ∧
        (resourceComputeVpcPeeringConnectionRead config d w).d = d) := by
  rw [read_of_resolves config d w project networkName hres]
  simp only [hget]
  refine ⟨trivial, trivial, trivial, ?_, ?_⟩
  · intro hnf
    simp [handleNotFoundError, hnf]
  · intro hnf
    simp [handleNotFoundError, hnf]

/-- C7: for each of Create, Read and Delete, when project resolution fails with
`e`, or the project resolves and network resolution fails with `e`, or it
yields the empty string and `e` is the error "network": required field is not
set, the operation returns `e` itself, issues no remote call and leaves the
local state, identifier included, as it was. -/
theorem validation_error_aborts_before_any_call {σ : Type} (config : Config σ)
    (d : ResourceData) (w : World σ) (e : Error)
    (h : getProject d config = .error e ∨
      ∃ project, getProject d config = .ok project ∧
        (getNetworkName config d = .error e ∨
          (getNetworkName config d = .ok "" ∧
            e = fmtErrorf (fmtQuote "network" ++ ": required field is not set")))) :
    resourceComputeVpcPeeringConnectionCreate config d w = ⟨some e, d, w⟩ ∧
      resourceComputeVpcPeeringConnectionRead config d w = ⟨some e, d, w⟩ ∧
      resourceComputeVpcPeeringConnectionDelete config d w = ⟨some e, d, w⟩ := by
  rcases h with hp | ⟨project, hp, hn | ⟨hn, he⟩⟩
  · simp [resourceComputeVpcPeeringConnectionCreate, resourceComputeVpcPeeringConnectionRead,
      resourceComputeVpcPeeringConnectionDelete, hp]
  · simp [resourceComputeVpcPeeringConnectionCreate, resourceComputeVpcPeeringConnectionRead,
      resourceComputeVpcPeeringConnectionDelete, resourceComputeVpcPeeringConnectionNetwork,
      hp, hn]
  · simp [resourceComputeVpcPeeringConnectionCreate, resourceComputeVpcPeeringConnectionRead,
      resourceComputeVpcPeeringConnectionDelete, resourceComputeVpcPeeringConnectionNetwork,
      hp, hn, he]

/-- C10: on every local state and every remote behaviour, Read leaves the world
untouched or issues exactly one get-network call (never add-peering,
remove-peering or a wait), and the network, peer_network and project fields
after Read are those before it. -/
theorem read_issues_at_most_one_get_and_keeps_keys {σ : Type} (config : Config σ)
    (d : ResourceData) (w : World σ) :
    ((resourceComputeVpcPeeringConnectionRead config d w).world = w ∨
      ∃ project network,
        (resourceComputeVpcPeeringConnectionRead config d w).world =
          { remote := (config.networksGet w.remote project network).2
            calls := w.calls ++ [Call.getNetwork project network] }) ∧
      (resourceComputeVpcPeeringConnectionRead config d w).d.network = d.network ∧
      (resourceComputeVpcPeeringConnectionRead config d w).d.peer_network = d.peer_network ∧
      (resourceComputeVpcPeeringConnectionRead config d w).d.project = d.project :=
  ⟨read_world_cases config d w, read_fields_frame config d w⟩

/-- C5: when project and network resolve, the first remote call of Create is
the add-peering call keyed by the resolved project and network; its request
carries the local name, peer_network and auto_create_routes, whatever the value
of auto_create_routes (false or never set included), with "AutoCreateRoutes" in
the explicit-send list; Create issues no other add-peering call. -/
theorem create_request_carries_fields_and_marker {σ : Type} (config : Config σ)
    (d : ResourceData) (w : World σ) (project network : String)
    (hres : Resolves config d project network) :
    ∃ req rest,
      (resourceComputeVpcPeeringConnectionCreate config d w).world.calls =
        w.calls ++ Call.addPeering project network req :: rest ∧
      req.Name = d.name ∧ req.PeerNetwork = d.peer_network ∧
      req.AutoCreateRoutes = d.auto_create_routes ∧
      "AutoCreateRoutes" ∈ req.ForceSendFields ∧
      ∀ c ∈ rest, ∀ p n r, c ≠ Call.addPeering p n r := by
  refine ⟨addPeeringRequest d, ?_⟩
  rw [create_of_resolves config d w project network hres]
  simp only [World.networksAddPeering, computeOperationWaitGlobal]
  cases hadd : (config.networksAddPeering w.remote project network (addPeeringRequest d)).1 with
  | error err => exact ⟨[], by simp [addPeeringRequest]⟩
  | ok op =>
    simp only []
    cases hwait : (config.operationWait
      (config.networksAddPeering w.remote project network (addPeeringRequest d)).2 op project
      "Creating Network Peering").1 with
    | some err =>
      exact ⟨[Call.wait op project "Creating Network Peering"], by simp [addPeeringRequest]⟩
    | none =>
      simp only []
      rcases read_world_cases config (d.SetId d.name)
        { remote := (config.operationWait
            (config.networksAddPeering w.remote project network (addPeeringRequest d)).2 op
            project "Creating Network Peering").2
          calls := w.calls ++ [Call.addPeering project network (addPeeringRequest d)] ++
            [Call.wait op project "Creating Network Peering"] } with hw | ⟨p, n, hw⟩
      · refine ⟨[Call.wait op project "Creating Network Peering"], ?_⟩
        rw [hw]
        simp [addPeeringRequest]
      · refine ⟨[Call.wait op project "Creating Network Peering", Call.getNetwork p n], ?_⟩
        rw [hw]
        simp [addPeeringRequest]

/-- C8: when project and network resolve.  If the add-peering call fails with
`e`, Create returns the error "Error creating network peering: " followed by the
text of `e` and the local state, identifier included, is unchanged.  If the
add-peering call succeeds and the waiter fails with `e`, Create returns `e`
itself, the identifier is the name, and the only calls issued are the
add-peering call and the wait (Read is not invoked, no get-network call).  If
both succeed, Create is Read run on the state whose identifier is the name. -/
theorem create_assigns_identifier_after_add {σ : Type} (config : Config σ)
    (d : ResourceData) (w : World σ) (project network : String)
    (hres : Resolves config d project network) :
    (∀ e, (config.networksAddPeering w.remote project network (addPeeringRequest d)).1
          = .error e →
        resourceComputeVpcPeeringConnectionCreate config d w =
          ⟨some (fmtErrorf ("Error creating network peering: " ++ e.Error)), d,
            (w.networksAddPeering config project network (addPeeringRequest d)).2⟩) ∧
    (∀ op e,
        (config.networksAddPeering w.remote project network (addPeeringRequest d)).1
          = .ok op →
        (config.operationWait
          (config.networksAddPeering w.remote project network (addPeeringRequest d)).2
          op project "Creating Network Peering").1 = some e →
        (resourceComputeVpcPeeringConnectionCreate config d w).err = some e ∧
        (resourceComputeVpcPeeringConnectionCreate config d w).d = d.SetId d.name ∧
        (resourceComputeVpcPeeringConnectionCreate config d w).d.Id = d.name ∧
        (resourceComputeVpcPeeringConnectionCreate config d w).world.calls =
          w.calls ++ [Call.addPeering project network (addPeeringRequest d),
            Call.wait op project "Creating Network Peering"]) ∧
    (∀ op,
        (config.networksAddPeering w.remote project network (addPeeringRequest d)).1
          = .ok op →
        (config.operationWait
          (config.networksAddPeering w.remote project network (addPeeringRequest d)).2
          op project "Creating Network Peering").1 = none →
        resourceComputeVpcPeeringConnectionCreate config d w =
          resourceComputeVpcPeeringConnectionRead config (d.SetId d.name)
            (computeOperationWaitGlobal config
              (w.networksAddPeering config project network (addPeeringRequest d)).2
              op project "Creating Network Peering").2) := by
  rw [create_of_resolves config d w project network hres]
  refine ⟨?_, ?_, ?_⟩
  · intro e hadd
    simp [World.networksAddPeering, hadd]
  · intro op e hadd hwait
    simp [World.networksAddPeering, computeOperationWaitGlobal, hadd, hwait,
      ResourceData.Id, ResourceData.SetId]
  · intro op hadd hwait
    simp [World.networksAddPeering, computeOperationWaitGlobal, hadd, hwait]

/-- C6: when project and network resolve, the remove-peering request carries
the local identifier as its name.  If the call fails with `e`, Delete returns
the error "Error deleting network peering: " followed by the text of `e`; if it
succeeds and the waiter fails with `e`, Delete returns `e` itself; in both
cases the local state keeps its identifier.  If both succeed Delete returns no
error and clears the identifier.  So the identifier is cleared exactly when
both succeed. -/
theorem delete_clears_identifier_iff_both_succeed {σ : Type} (config : Config σ)
    (d : ResourceData) (w : World σ) (project network : String)
    (hres : Resolves config d project network) :
    (∃ rest, (resourceComputeVpcPeeringConnectionDelete config d w).world.calls =
        w.calls ++ Call.removePeering project network { Name := d.Id } :: rest) ∧
    (∀ e, (config.networksRemovePeering w.remote project network { Name := d.Id }).1
          = .error e →
        resourceComputeVpcPeeringConnectionDelete config d w =
          ⟨some (fmtErrorf ("Error deleting network peering: " ++ e.Error)), d,
            (w.networksRemovePeering config project network { Name := d.Id }).2⟩) ∧
    (∀ op e,
        (config.networksRemovePeering w.remote project network { Name := d.Id }).1
          = .ok op →
        (config.operationWait
          (config.networksRemovePeering w.remote project network { Name := d.Id }).2
          op project "Deleting Network Peering").1 = some e →
        (resourceComputeVpcPeeringConnectionDelete config d w).err = some e ∧
        (resourceComputeVpcPeeringConnectionDelete config d w).d = d) ∧
    (∀ op,
        (config.networksRemovePeering w.remote project network { Name := d.Id }).1
          = .ok op →
        (config.operationWait
          (config.networksRemovePeering w.remote project network { Name := d.Id }).2
          op project "Deleting Network Peering").1 = none →
        (resourceComputeVpcPeeringConnectionDelete config d w).err = none ∧
        (resourceComputeVpcPeeringConnectionDelete config d w).d = d.SetId "" ∧
        (resourceComputeVpcPeeringConnectionDelete config d w).d.Id = "") := by
  rw [delete_of_resolves config d w project network hres]
  simp only [World.networksRemovePeering, computeOperationWaitGlobal, removePeeringRequest]
  refine ⟨?_, ?_, ?_, ?_⟩
  · cases hrm : (config.networksRemovePeering w.remote project network { Name := d.Id }).1 with
    | error err => exact ⟨[], by simp⟩
    | ok op =>
      simp only []
      cases hwait : (config.operationWait
        (config.networksRemovePeering w.remote project network { Name := d.Id }).2 op project
        "Deleting Network Peering").1 with
      | some err => exact ⟨[Call.wait op project "Deleting Network Peering"], by simp⟩
      | none => exact ⟨[Call.wait op project "Deleting Network Peering"], by simp⟩
  · intro e hrm
    simp [hrm]
  · intro op e hrm hwait
    simp [hrm, hwait]
  · intro op hrm hwait
    simp only [hrm, hwait]
    exact ⟨trivial, trivial, rfl⟩

/-- C4 (amended): when project and network resolve, the add-peering call and
the waiter succeed, and in each network description fetched afterwards the
first peering with the submitted name carries the submitted
auto_create_routes, then Create returns no error, Read run right after it
returns no error, and after each of them name and auto_create_routes are the
values supplied to Create and the identifier is the name. -/
theorem create_then_read_keeps_supplied_values {σ : Type} (config : Config σ)
    (d : ResourceData) (w w1 w2 w3 w4 : World σ) (project network : String) (op : Operation)
    (net1 net2 : Network)
    (hres : Resolves config d project network)
    (hadd : w.networksAddPeering config project network (addPeeringRequest d) = (.ok op, w1))
    (hwait : computeOperationWaitGlobal config w1 op project "Creating Network Peering"
      = (none, w2))
    (hget1 : w2.networksGet config project network = (.ok net1, w3))
    (hfirst1 : ∃ pre p post, net1.Peerings = pre ++ p :: post ∧
      (∀ q ∈ pre, q.Name ≠ d.name) ∧ p.Name = d.name ∧
      p.AutoCreateRoutes = d.auto_create_routes)
    (hget2 : w3.networksGet config project network = (.ok net2, w4))
    (hfirst2 : ∃ pre p post, net2.Peerings = pre ++ p :: post ∧
      (∀ q ∈ pre, q.Name ≠ d.name) ∧ p.Name = d.name ∧
      p.AutoCreateRoutes = d.auto_create_routes) :
    (resourceComputeVpcPeeringConnectionCreate config d w).err = none ∧
    (resourceComputeVpcPeeringConnectionCreate config d w).d.name = d.name ∧
    (resourceComputeVpcPeeringConnectionCreate config d w).d.auto_create_routes
      = d.auto_create_routes ∧
    (resourceComputeVpcPeeringConnectionCreate config d w).d.Id = d.name ∧
    (resourceComputeVpcPeeringConnectionRead config
      (resourceComputeVpcPeeringConnectionCreate config d w).d
      (resourceComputeVpcPeeringConnectionCreate config d w).world).err = none ∧
    (resourceComputeVpcPeeringConnectionRead config
      (resourceComputeVpcPeeringConnectionCreate config d w).d
      (resourceComputeVpcPeeringConnectionCreate config d w).world).d.name = d.name ∧
    (resourceComputeVpcPeeringConnectionRead config
      (resourceComputeVpcPeeringConnectionCreate config d w).d
      (resourceComputeVpcPeeringConnectionCreate config d w).world).d.auto_create_routes
      = d.auto_create_routes ∧
    (resourceComputeVpcPeeringConnectionRead config
      (resourceComputeVpcPeeringConnectionCreate config d w).d
      (resourceComputeVpcPeeringConnectionCreate config d w).world).d.Id = d.name := by
  obtain ⟨pre1, p1, post1, hl1, hpre1, hp1, ha1⟩ := hfirst1
  obtain ⟨pre2, p2, post2, hl2, hpre2, hp2, ha2⟩ := hfirst2
  have hcreate : resourceComputeVpcPeeringConnectionCreate config d w =
      ⟨none, { d.SetId d.name with
        name := p1.Name
        auto_create_routes := p1.AutoCreateRoutes
        state := p1.State
        state_details := p1.StateDetails }, w3⟩ := by
    rw [create_of_resolves config d w project network hres, hadd]
    simp only [hwait]
    exact read_eq_of_first_match config (d.SetId d.name) w2 w3 project network net1 pre1 post1 p1
      (resolves_setId d.name hres) hget1 hl1 hpre1 hp1
  have hread := read_eq_of_first_match config
    { d.SetId d.name with
      name := p1.Name
      auto_create_routes := p1.AutoCreateRoutes
      state := p1.State
      state_details := p1.StateDetails } w3 w4 project network net2 pre2 post2 p2 hres hget2
    hl2 hpre2 hp2
  rw [hcreate]
  simp only [hread]
  simp [ResourceData.Id, ResourceData.SetId, hp1, ha1, hp2, ha2]

/-- C9: what the code does after Import.  From the state Import produces
for the identifier `x` (the identifier and no field), when the network resolver
finds no network in the unset field (it fails or yields the empty string), Read
returns an error, keeps the identifier, populates no field and issues no remote
call, whatever the remote network lists; when the project resolves, the error
is "network": required field is not set (lines 62-63). -/
theorem read_after_import_is_a_validation_error {σ : Type} (config : Config σ)
    (x : String) (d : ResourceData) (w : World σ)
    (hd : d ∈ ImportStatePassthrough (importedState x))
    (hunset : ∀ n, getNetworkName config (importedState x) = .ok n → n = "") :
    (∃ e, resourceComputeVpcPeeringConnectionRead config d w = ⟨some e, importedState x, w⟩) ∧
      (resourceComputeVpcPeeringConnectionRead config d w).d.Id = x ∧
      (∀ project, getProject (importedState x) config = .ok project →
        getNetworkName config (importedState x) = .ok "" →
        resourceComputeVpcPeeringConnectionRead config d w =
          ⟨some (fmtErrorf (fmtQuote "network" ++ ": required field is not set")),
            importedState x, w⟩) := by
  have hdx : d = importedState x := by simpa [ImportStatePassthrough] using hd
  subst hdx
  have hshape : ∃ e, resourceComputeVpcPeeringConnectionRead config (importedState x) w =
      ⟨some e, importedState x, w⟩ := by
    cases hp : getProject (importedState x) config with
    | error e =>
      exact ⟨e, by simp [resourceComputeVpcPeeringConnectionRead, hp]⟩
    | ok project =>
      cases hn : getNetworkName config (importedState x) with
      | error e =>
        exact ⟨e, by
          simp [resourceComputeVpcPeeringConnectionRead,
            resourceComputeVpcPeeringConnectionNetwork, hp, hn]⟩
      | ok n =>
        have hn0 : n = "" := hunset n hn
        subst hn0
        exact ⟨fmtErrorf (fmtQuote "network" ++ ": required field is not set"), by
          simp [resourceComputeVpcPeeringConnectionRead,
            resourceComputeVpcPeeringConnectionNetwork, hp, hn]⟩
  refine ⟨hshape, ?_, ?_⟩
  · obtain ⟨e, he⟩ := hshape
    rw [he]
    rfl
  · intro project hp hn
    simp [resourceComputeVpcPeeringConnectionRead,
      resourceComputeVpcPeeringConnectionNetwork, hp, hn]

/-! ## Worked instances -/

/-- Instance of C1: `peer-a` is listed twice after `peer-b`; Read takes the first
of the two. -/
theorem read_populates_from_first_match_witness :
    Resolves (scenarioConfig calm) peerACreated "proj-1" "net-1" ∧
      (resourceComputeVpcPeeringConnectionRead (scenarioConfig calm) peerACreated
        (worldOf twicePeerA)).err = none ∧
      (resourceComputeVpcPeeringConnectionRead (scenarioConfig calm) peerACreated
        (worldOf twicePeerA)).d.Id = "peer-a" ∧
      (resourceComputeVpcPeeringConnectionRead (scenarioConfig calm) peerACreated
        (worldOf twicePeerA)).d.state_details = "connected" := by
  have hres : Resolves (scenarioConfig calm) peerACreated "proj-1" "net-1" :=
    ⟨rfl, rfl, by decide⟩
  obtain ⟨_, _, _, _, _, _, herr, hid, _⟩ :=
    read_populates_from_first_match (scenarioConfig calm) peerACreated (worldOf twicePeerA)
      "proj-1" "net-1" { Peerings := twicePeerA } hres rfl
      ⟨{ Name := "peer-a", AutoCreateRoutes := true, State := "ACTIVE",
         StateDetails := "connected" }, by decide, rfl⟩
  exact ⟨hres, herr, hid, rfl⟩

/-- Instance of C2: the network lists no peering at all and the classifier,
handed no error, keeps the identifier and reports the label as an error: Read
returns that error and the identifier stays, where the claim expects the
identifier cleared and no error. -/
theorem read_no_match_hands_nil_to_classifier_witness :
    Resolves (scenarioConfig calm) peerACreated "proj-1" "net-1" ∧
      (resourceComputeVpcPeeringConnectionRead (scenarioConfig calm) peerACreated
        (worldOf [])).err ≠ none ∧
      (resourceComputeVpcPeeringConnectionRead (scenarioConfig calm) peerACreated
        (worldOf [])).d = peerACreated ∧
      (resourceComputeVpcPeeringConnectionRead (scenarioConfig calm) peerACreated
        (worldOf [])).d.Id = "peer-a" := by
  have h := read_no_match_hands_nil_to_classifier (scenarioConfig calm) peerACreated
    (worldOf []) "proj-1" "net-1" { Peerings := [] } ⟨rfl, rfl, by decide⟩ rfl (by simp)
  refine ⟨⟨rfl, rfl, by decide⟩, ?_, ?_, ?_⟩
  · rw [h.2.1]
    simp [scenarioConfig]
  · rw [h.2.2.1]
    simp [scenarioConfig]
  · rw [h.2.2.1]
    simp [scenarioConfig, peerACreated, peerA, ResourceData.Id, ResourceData.SetId]

/-- Instance of C3: the get-network call reports 404 although a peering exists. -/
theorem read_get_failure_is_classified_witness :
    (resourceComputeVpcPeeringConnectionRead (scenarioConfig networkGone) peerACreated
        (worldOf activePeerA)).err = none ∧
      (resourceComputeVpcPeeringConnectionRead (scenarioConfig networkGone) peerACreated
        (worldOf activePeerA)).d = peerACreated.SetId "" :=
  (read_get_failure_is_classified (scenarioConfig networkGone) peerACreated
    (worldOf activePeerA) "proj-1" "net-1" (.remote 404 "network not found")
    ⟨rfl, rfl, by decide⟩ rfl).2.2.2.1 rfl

/-- Instance of C4 (amended): the scenario of the spec, `peer-a` created on an
empty network and found active. -/
theorem create_then_read_keeps_supplied_values_witness :
    (resourceComputeVpcPeeringConnectionCreate (scenarioConfig calm) peerA (worldOf [])).err
        = none ∧
      (resourceComputeVpcPeeringConnectionCreate (scenarioConfig calm) peerA
        (worldOf [])).d.name = "peer-a" ∧
      (resourceComputeVpcPeeringConnectionRead (scenarioConfig calm)
        (resourceComputeVpcPeeringConnectionCreate (scenarioConfig calm) peerA (worldOf [])).d
        (resourceComputeVpcPeeringConnectionCreate (scenarioConfig calm) peerA
          (worldOf [])).world).d.auto_create_routes = true := by
  have h := create_then_read_keeps_supplied_values (scenarioConfig calm) peerA (worldOf [])
    { remote := activePeerA
      calls := [Call.addPeering "proj-1" "net-1" (addPeeringRequest peerA)] }
    { remote := activePeerA
      calls := [Call.addPeering "proj-1" "net-1" (addPeeringRequest peerA),
        Call.wait { Name := "operation-add" } "proj-1" "Creating Network Peering"] }
    { remote := activePeerA
      calls := [Call.addPeering "proj-1" "net-1" (addPeeringRequest peerA),
        Call.wait { Name := "operation-add" } "proj-1" "Creating Network Peering",
        Call.getNetwork "proj-1" "net-1"] }
    { remote := activePeerA
      calls := [Call.addPeering "proj-1" "net-1" (addPeeringRequest peerA),
        Call.wait { Name := "operation-add" } "proj-1" "Creating Network Peering",
        Call.getNetwork "proj-1" "net-1", Call.getNetwork "proj-1" "net-1"] }
    "proj-1" "net-1" { Name := "operation-add" } { Peerings := activePeerA }
    { Peerings := activePeerA } ⟨rfl, rfl, by decide⟩ rfl rfl rfl
    ⟨[], { Name := "peer-a", AutoCreateRoutes := true, State := "ACTIVE", StateDetails := "" },
      [], rfl, by simp, rfl, rfl⟩
    rfl
    ⟨[], { Name := "peer-a", AutoCreateRoutes := true, State := "ACTIVE", StateDetails := "" },
      [], rfl, by simp, rfl, rfl⟩
  exact ⟨h.1, h.2.1, h.2.2.2.2.2.2.1⟩

/-- Counterexample to C4 as stated: the network already lists an older `peer-a`
that creates no routes; after Create the network lists a peering carrying the
submitted name and auto_create_routes, Create and Read return no error, yet the
entity's auto_create_routes is that of the older entry. -/
theorem create_then_read_counterexample :
    Resolves (scenarioConfig calm) peerA "proj-1" "net-1" ∧
      ((scenarioConfig calm).networksAddPeering stalePeerA "proj-1" "net-1"
        (addPeeringRequest peerA)).1 = .ok { Name := "operation-add" } ∧
      ((scenarioConfig calm).operationWait
        ((scenarioConfig calm).networksAddPeering stalePeerA "proj-1" "net-1"
          (addPeeringRequest peerA)).2
        { Name := "operation-add" } "proj-1" "Creating Network Peering").1 = none ∧
      (∃ q ∈ (resourceComputeVpcPeeringConnectionCreate (scenarioConfig calm) peerA
          (worldOf stalePeerA)).world.remote,
        q.Name = peerA.name ∧ q.AutoCreateRoutes = peerA.auto_create_routes) ∧
      (resourceComputeVpcPeeringConnectionCreate (scenarioConfig calm) peerA
        (worldOf stalePeerA)).err = none ∧
      (resourceComputeVpcPeeringConnectionRead (scenarioConfig calm)
        (resourceComputeVpcPeeringConnectionCreate (scenarioConfig calm) peerA
          (worldOf stalePeerA)).d
        (resourceComputeVpcPeeringConnectionCreate (scenarioConfig calm) peerA
          (worldOf stalePeerA)).world).err = none ∧
      peerA.auto_create_routes = true ∧
      (resourceComputeVpcPeeringConnectionRead (scenarioConfig calm)
        (resourceComputeVpcPeeringConnectionCreate (scenarioConfig calm) peerA
          (worldOf stalePeerA)).d
        (resourceComputeVpcPeeringConnectionCreate (scenarioConfig calm) peerA
          (worldOf stalePeerA)).world).d.auto_create_routes = false :=
  ⟨⟨rfl, rfl, by decide⟩, rfl, rfl,
    ⟨{ Name := "peer-a", AutoCreateRoutes := true, State := "ACTIVE", StateDetails := "" },
      by decide, rfl, rfl⟩,
    rfl, rfl, rfl, rfl⟩

/-- Instance of C5: auto_create_routes was never set; the request still marks
the field for sending. -/
theorem create_request_carries_fields_and_marker_witness :
    Resolves (scenarioConfig calm) peerANoRoutes "proj-1" "net-1" ∧
      ∃ req, req.AutoCreateRoutes = false ∧ "AutoCreateRoutes" ∈ req.ForceSendFields ∧
        Call.addPeering "proj-1" "net-1" req ∈
          (resourceComputeVpcPeeringConnectionCreate (scenarioConfig calm) peerANoRoutes
            (worldOf [])).world.calls := by
  have hres : Resolves (scenarioConfig calm) peerANoRoutes "proj-1" "net-1" :=
    ⟨rfl, rfl, by decide⟩
  obtain ⟨req, rest, hcalls, _, _, hauto, hmark, _⟩ :=
    create_request_carries_fields_and_marker (scenarioConfig calm) peerANoRoutes (worldOf [])
      "proj-1" "net-1" hres
  exact ⟨hres, req, hauto, hmark, by rw [hcalls]; simp⟩

/-- Instance of C6: the scenario of the spec, the removal of `peer-a` is
rejected and the identifier stays. -/
theorem delete_clears_identifier_iff_both_succeed_witness :
    resourceComputeVpcPeeringConnectionDelete (scenarioConfig removeRejected) peerACreated
        (worldOf activePeerA) =
      ⟨some (fmtErrorf ("Error deleting network peering: " ++ "backend error")), peerACreated,
        (World.networksRemovePeering (worldOf activePeerA) (scenarioConfig removeRejected)
          "proj-1" "net-1" { Name := "peer-a" }).2⟩ :=
  (delete_clears_identifier_iff_both_succeed (scenarioConfig removeRejected) peerACreated
    (worldOf activePeerA) "proj-1" "net-1" ⟨rfl, rfl, by decide⟩).2.1
    (.remote 500 "backend error") rfl

/-- Instance of C7: the network field is unset and resolves to the empty string. -/
theorem validation_error_aborts_before_any_call_witness :
    resourceComputeVpcPeeringConnectionCreate (scenarioConfig calm) peerANoNetwork (worldOf [])
        = ⟨some (.errorString "\"network\": required field is not set"), peerANoNetwork,
            worldOf []⟩ ∧
      resourceComputeVpcPeeringConnectionRead (scenarioConfig calm) peerANoNetwork (worldOf [])
        = ⟨some (.errorString "\"network\": required field is not set"), peerANoNetwork,
            worldOf []⟩ ∧
      resourceComputeVpcPeeringConnectionDelete (scenarioConfig calm) peerANoNetwork (worldOf [])
        = ⟨some (.errorString "\"network\": required field is not set"), peerANoNetwork,
            worldOf []⟩ :=
  validation_error_aborts_before_any_call (scenarioConfig calm) peerANoNetwork (worldOf [])
    (.errorString "\"network\": required field is not set")
    (Or.inr ⟨"proj-1", rfl, Or.inr ⟨rfl, by decide⟩⟩)

/-- Instance of C8: the add-peering call succeeds and the waiter times out. -/
theorem create_assigns_identifier_after_add_witness :
    (resourceComputeVpcPeeringConnectionCreate (scenarioConfig waitTimesOut) peerA
        (worldOf [])).err = some (.errorString "timeout while waiting for the operation") ∧
      (resourceComputeVpcPeeringConnectionCreate (scenarioConfig waitTimesOut) peerA
        (worldOf [])).d = peerA.SetId peerA.name ∧
      (resourceComputeVpcPeeringConnectionCreate (scenarioConfig waitTimesOut) peerA
        (worldOf [])).d.Id = peerA.name ∧
      (resourceComputeVpcPeeringConnectionCreate (scenarioConfig waitTimesOut) peerA
        (worldOf [])).world.calls =
        (worldOf []).calls ++ [Call.addPeering "proj-1" "net-1" (addPeeringRequest peerA),
          Call.wait { Name := "operation-add" } "proj-1" "Creating Network Peering"] :=
  (create_assigns_identifier_after_add (scenarioConfig waitTimesOut) peerA (worldOf [])
    "proj-1" "net-1" ⟨rfl, rfl, by decide⟩).2.1 { Name := "operation-add" }
    (.errorString "timeout while waiting for the operation") rfl rfl

/-- Instance of C9: `peer-a` is imported while the network lists an active
`peer-a`; the project comes from the configuration, the unset network field
resolves to the empty string, and Read stops at the required-field error. -/
theorem read_after_import_is_a_validation_error_witness :
    resourceComputeVpcPeeringConnectionRead (scenarioConfig projectDefault)
        (importedState "peer-a") (worldOf activePeerA) =
      ⟨some (.errorString "\"network\": required field is not set"), importedState "peer-a",
        worldOf activePeerA⟩ :=
  (read_after_import_is_a_validation_error (scenarioConfig projectDefault) "peer-a"
    (importedState "peer-a") (worldOf activePeerA) (by simp [ImportStatePassthrough])
    (by
      intro n hn
      have h : (Except.ok "" : Except Error String) = Except.ok n := hn
      injection h with h1
      exact h1.symm)).2.2 "proj-1" rfl rfl

end VpcPeering
